import Mathlib

/-!
Verification of the background job-orchestration layer of the bottle
feed-ingestion and archival server.  Each definition below is a shallow
embedding of one function of the Rust source (the file and function are
named in its doc comment); database writes and channel sends are made
explicit as returned values, and the scripted outcomes of network calls
are passed in as arguments.
-/

namespace Bottle

/-- `SaveResult` from `bottle_core/src/feed.rs`: result of one fetch/save
cycle of the feed sync engine. -/
structure SaveResult where
  post_ids : List String
  should_stop : Bool
  reached_end : Bool
deriving Repr, DecidableEq

/-- `FeedUpdateJobState` from `bottle_server/src/background_job/feed.rs`. -/
inductive FeedUpdateJobState where
  | Ready
  | Running (fetched : Nat)
  | Success (fetched : Nat)
  | Failed (error : String)
deriving Repr, DecidableEq

/-- `FeedUpdateJobState::finished` from
`bottle_server/src/background_job/feed.rs`. -/
def FeedUpdateJobState.finished : FeedUpdateJobState → Bool
  | .Success _ => true
  | .Failed _ => true
  | _ => false

/-- The fetch/save loop of `update_feed`
(`bottle_server/src/background_job/feed.rs`, step 4).  The scripted
per-cycle `SaveResult`s are consumed in order; the loop adds each cycle's
`post_ids.len()` to the running total and breaks at the first
`should_stop`.  Returns (cycles executed, total fetched, stopped?); the
third component is `false` when the script ran out before any
`should_stop`, i.e. the real loop would fetch again. -/
def updateFeedLoop : List SaveResult → Nat × Nat × Bool
  | [] => (0, 0, false)
  | r :: rest =>
    if r.should_stop then (1, r.post_ids.length, true)
    else
      let t := updateFeedLoop rest
      (t.1 + 1, r.post_ids.length + t.2.1, t.2.2)

/-- Terminal state broadcast by `update_feed` on normal completion:
`Success { fetched }` once the loop has stopped (step 5 of the source). -/
def updateFeedFinal (results : List SaveResult) : Option FeedUpdateJobState :=
  let t := updateFeedLoop results
  if t.2.2 then some (.Success t.2.1) else none

/-- The list `a, a+1, ..., a+n-1`, modelling a Rust integer range of
length `n` starting at `a`. -/
def intRangeFrom (a : Int) (n : Nat) : List Int :=
  (List.range n).map fun i : Nat => a + (i : Int)

/-- Pure kernel of `PixivFeed::handle_after_update`
(`bottle_pixiv/src/feed.rs`): given the feed's greatest existing
`sort_index` (the source queries it with `unwrap_or(-1)`) and the run's
`SaveResult`s, it concatenates every cycle's `post_ids` and zips them with
`((last+1)..(last+1+len)).rev()`, the pairs being written back to the
membership rows. -/
def handleAfterUpdate (last_sort_index : Int) (save_results : List SaveResult) :
    List (String × Int) :=
  let post_ids := save_results.flatMap (·.post_ids)
  post_ids.zip ((intRangeFrom (last_sort_index + 1) post_ids.length).reverse)

/-- `GeneralJobState` from `bottle_server/src/background_job/entity.rs`. -/
inductive GeneralJobState where
  | Ready
  | Running
  | Success
  | Failed
deriving Repr, DecidableEq

/-- `ImageDownloadFailure` from
`bottle_server/src/background_job/download.rs`. -/
structure ImageDownloadFailure where
  url : String
  error : String
deriving Repr, DecidableEq

/-- `ImageDownloadJobState` from
`bottle_server/src/background_job/download.rs`. -/
inductive ImageDownloadJobState where
  | Ready
  | Running (total success failure : Nat)
  | Success (total : Nat)
  | PartialSuccess (total success : Nat) (failures : List ImageDownloadFailure)
  | Failed (error : String)
deriving Repr, DecidableEq

/-- `ImageDownloadJobState::finished`: everything except `Running` counts
as finished (note that `Ready` does). -/
def ImageDownloadJobState.finished : ImageDownloadJobState → Bool
  | .Running _ _ _ => false
  | _ => true

/-- `DownloadTask` from `bottle_download/src/lib.rs` (paths kept as
strings). -/
structure DownloadTask where
  url : String
  root_dir : String
  subdir : String
  filename : String
  image_id : Int
deriving Repr, DecidableEq

/-- `LocalImage` from `bottle_download/src/lib.rs`. -/
structure LocalImage where
  relpath : String
  filename : String
  thumbnail_relpath : Option String
  small_thumbnail_relpath : Option String
  width : Option Nat
  height : Option Nat
  size : Nat
deriving Repr, DecidableEq

/-- `futures::stream::iter(futures).buffer_unordered(n).collect::<Vec<_>>()`
as used by `download_images`: the collected vector holds the per-future
results in completion order, which under the concurrency limit may be any
permutation of the issue order.  `completion` lists the task indices in
the order their futures completed. -/
def collectUnordered {α : Type} (results : List α) (completion : List Nat) : List α :=
  completion.filterMap fun i => results[i]?

/-- `download_images` from `bottle_server/src/background_job/download.rs`,
steps 1 and 4: the terminal job state computed from the task list, the
per-task outcomes (`outcomes[i]` is what task `i`'s worker returned, an
error being rendered to its message string) and the completion order of
the workers. -/
def downloadImages (tasks : List DownloadTask)
    (outcomes : List (Except String LocalImage)) (completion : List Nat) :
    ImageDownloadJobState :=
  if tasks.isEmpty then .Success 0
  else
    let images := collectUnordered outcomes completion
    let failures := (tasks.zip images).filterMap fun ti =>
      match ti.2 with
      | .error e => some ⟨ti.1.url, e⟩
      | .ok _ => none
    if failures.isEmpty then .Success tasks.length
    else .PartialSuccess tasks.length (tasks.length - failures.length) failures

/-- Environment of one `bottle_download::harvest::download_image` call:
whether the destination file already exists, what
`get_local_image_info` would report for it, and the scripted outcome of
the network path (request, body download, completeness check, disk write,
thumbnails). -/
structure HarvestEnv where
  dest_exists : Bool
  local_info : LocalImage
  net_result : Except String LocalImage
deriving Repr

/-- `download_image` from `bottle_download/src/harvest.rs`: when
`overwrite` is off and the destination exists the local file's info is
returned directly (step 1); otherwise the network path runs.  The first
component records whether the network was hit. -/
def harvestDownloadImage (env : HarvestEnv) (overwrite : Bool) :
    Bool × Except String LocalImage :=
  if !overwrite && env.dest_exists then (false, .ok env.local_info)
  else (true, env.net_result)

/-- `PandaImageDownloadFailure` from
`bottle_server/src/background_job/panda.rs`. -/
structure PandaImageDownloadFailure where
  gid : Int
  index : Int
  error : String
deriving Repr, DecidableEq

/-- `PandaDownloadJobState` from
`bottle_server/src/background_job/panda.rs`. -/
inductive PandaDownloadJobState where
  | Ready
  | FetchingMetadata (total success : Int)
  | Running (total success failure : Int)
  | Success (total : Int)
  | PartialSuccess (total success : Int) (failures : List PandaImageDownloadFailure)
  | Failed (error : String)
deriving Repr, DecidableEq

/-- `PandaDownloadJobState::finished`: `Success`, `Failed` and
`PartialSuccess` are terminal. -/
def PandaDownloadJobState.finished : PandaDownloadJobState → Bool
  | .Success _ => true
  | .Failed _ => true
  | .PartialSuccess _ _ _ => true
  | _ => false

/-- Result of one enqueue call on a keyed job registry: the state the
key's cell holds afterwards, whether the key was pushed onto the work
queue, and the returned acceptance flag. -/
structure EnqueueOutcome (σ : Type) where
  entry : σ
  pushed : Bool
  accepted : Bool
deriving Repr

/-- `send_feed_update` from `bottle_server/src/background_job/feed.rs`,
restricted to the map entry of the triggered key (`none` meaning no entry
exists yet).  A missing entry is created `Ready` and pushed; a finished
entry is reset to `Ready` and re-pushed; an unfinished entry rejects the
trigger with `Ok(false)` and no side effect. -/
def sendFeedUpdate : Option FeedUpdateJobState → EnqueueOutcome FeedUpdateJobState
  | none => ⟨.Ready, true, true⟩
  | some s => if s.finished then ⟨.Ready, true, true⟩ else ⟨s, false, false⟩

/-- `send_panda_download` from `bottle_server/src/background_job/panda.rs`,
restricted to the map entry of the triggered gallery id. -/
def sendPandaDownload : Option PandaDownloadJobState → EnqueueOutcome PandaDownloadJobState
  | none => ⟨.Ready, true, true⟩
  | some s => if s.finished then ⟨.Ready, true, true⟩ else ⟨s, false, false⟩

/-- `send_image_download` from
`bottle_server/src/background_job/download.rs`.  The image-download job is
a process-wide singleton whose state cell is created at server start, so
the call only reads the current state: a non-finished job makes it return
an error (the cell is never touched), anything else enqueues the job
without resetting the cell. -/
def sendImageDownload (s : ImageDownloadJobState) :
    ImageDownloadJobState × Bool × Except String Unit :=
  if s.finished then (s, true, .ok ())
  else (s, false, .error "Image download job is already running")

/-- `ImageDownloadJobStateResponse` from
`bottle_server/src/background_job/download.rs`. -/
structure ImageDownloadJobStateResponse where
  state : GeneralJobState
  total : Nat
  success : Nat
  failure : Nat
  error : Option String
  failures : Option (List ImageDownloadFailure)
deriving Repr, DecidableEq

/-- `Default` for `ImageDownloadJobStateResponse` (all counters zero,
state `Ready`, no error, no failure list). -/
def ImageDownloadJobStateResponse.dflt : ImageDownloadJobStateResponse :=
  ⟨.Ready, 0, 0, 0, none, none⟩

/-- `From<&ImageDownloadJobState> for ImageDownloadJobStateResponse`
(`bottle_server/src/background_job/download.rs`): the rendered state
returned to pollers. -/
def imageResponseOf : ImageDownloadJobState → ImageDownloadJobStateResponse
  | .Ready => .dflt
  | .Running total success failure =>
      { ImageDownloadJobStateResponse.dflt with
          state := .Running, total := total, success := success, failure := failure }
  | .Success total =>
      { ImageDownloadJobStateResponse.dflt with
          state := .Success, total := total, success := total }
  | .PartialSuccess total success failures =>
      { ImageDownloadJobStateResponse.dflt with
          state := .Failed, total := total, success := success,
          failure := failures.length, failures := some failures }
  | .Failed error =>
      { ImageDownloadJobStateResponse.dflt with
          state := .Failed, error := some error }

/-- `PandaDownloadJobStateResponse` from
`bottle_server/src/background_job/panda.rs`. -/
structure PandaDownloadJobStateResponse where
  gid : Int
  title : String
  state : GeneralJobState
  metadata_fetched : Bool
  total_pages : Int
  success_pages : Int
  total_images : Int
  success_images : Int
  failure_images : Int
  failures : Option (List PandaImageDownloadFailure)
  error : Option String
deriving Repr, DecidableEq

/-- `Default` for `PandaDownloadJobStateResponse`. -/
def PandaDownloadJobStateResponse.dflt : PandaDownloadJobStateResponse :=
  ⟨0, "", .Ready, false, 0, 0, 0, 0, 0, none, none⟩

/-- `PandaDownloadJobStateResponse::new`
(`bottle_server/src/background_job/panda.rs`): renders a job state, then
stamps the gallery id and title. -/
def pandaResponseOf (gid : Int) (title : String) :
    PandaDownloadJobState → PandaDownloadJobStateResponse
  | .Ready =>
      { PandaDownloadJobStateResponse.dflt with gid := gid, title := title }
  | .FetchingMetadata total success =>
      { PandaDownloadJobStateResponse.dflt with
          gid := gid, title := title, state := .Running,
          total_pages := total, success_pages := success }
  | .Running total success failure =>
      { PandaDownloadJobStateResponse.dflt with
          gid := gid, title := title, state := .Running, metadata_fetched := true,
          total_images := total, success_images := success, failure_images := failure }
  | .Success total =>
      { PandaDownloadJobStateResponse.dflt with
          gid := gid, title := title, state := .Success, metadata_fetched := true,
          total_images := total }
  | .PartialSuccess total success failures =>
      { PandaDownloadJobStateResponse.dflt with
          gid := gid, title := title, state := .Failed, metadata_fetched := true,
          total_images := total, success_images := success,
          failure_images := failures.length, failures := some failures }
  | .Failed error =>
      { PandaDownloadJobStateResponse.dflt with
          gid := gid, title := title, state := .Failed, error := some error }

/-- `GUESSED_PAGE_SIZE` from `bottle_server/src/background_job/panda.rs`. -/
def GUESSED_PAGE_SIZE : Int := 20

/-- `guessed_page_count` from `bottle_server/src/background_job/panda.rs`:
`(media_count as f64 / page_size as f64).ceil() as i32`.  For the domain
the job layer uses (an `i32` media count with `0 ≤ media_count` and a
positive page size) the `f64` division and ceiling are exact, so it is
the integer ceiling of `media_count / page_size`, written here as
`-((-media_count) / page_size)` with floor division. -/
def guessedPageCount (media_count page_size : Int) : Int :=
  -((-media_count) / page_size)

/-- The Rust half-open integer range `a..b` as a list (empty when
`b ≤ a`). -/
def intRange (a b : Int) : List Int :=
  (List.range (b - a).toNat).map fun i : Nat => a + (i : Int)

/-- `pages_to_fetch` from `bottle_server/src/background_job/panda.rs`:
pages `0..page_count` whose index window `[p*size, (p+1)*size)` still
contains a required index (an index in `[0, media_count)` not yet known),
reversed so that popping from the vector's end walks pages in ascending
order.  The `HashSet` of known indices is modelled as a list queried by
membership. -/
def pagesToFetch (media_count : Int) (page_count page_size : Option Int)
    (existing_indices : List Int) : List Int :=
  let size := page_size.getD GUESSED_PAGE_SIZE
  let count := page_count.getD (guessedPageCount media_count size)
  let required := (intRange 0 media_count).filter fun i => !existing_indices.contains i
  ((intRange 0 count).filter fun p =>
    (intRange (p * size) ((p + 1) * size)).any fun i => required.contains i).reverse

/-- `PandaImageTask` from `bottle_panda/src/download.rs`. -/
structure PandaImageTask where
  gid : Int
  index : Int
  token : String
  image_id : Option Int
  downloaded : Bool
deriving Repr, DecidableEq

/-- `PandaDownloadTask` from `bottle_panda/src/download.rs`. -/
structure PandaDownloadTask where
  gid : Int
  token : String
  title : String
  has_detail : Bool
  media_count : Int
  work_id : Int
  image_tasks : List PandaImageTask
deriving Repr, DecidableEq

/-- `ImagePreview` from `panda_client/src/result.rs` (the fields
`fetch_metadata` reads). -/
structure ImagePreview where
  index : Int
  token : String
deriving Repr, DecidableEq

/-- `GalleryPageResult` from `panda_client/src/result.rs` (the fields
`fetch_metadata` reads): `image_count` is `result.gallery.image_count`. -/
structure GalleryPageResult where
  image_count : Int
  preview_page_count : Int
  previews : List ImagePreview
deriving Repr, DecidableEq

/-- The mutable state of the `fetch_metadata` loop
(`bottle_server/src/background_job/panda.rs`): the accumulating task, the
index→token map taken from the task's image tasks, the last reported page
count/size, the current media count, the set of known indices and the
remaining pages to fetch. -/
structure FetchMetadataState where
  task : PandaDownloadTask
  page_token : List (Int × String)
  page_count : Option Int
  page_size : Option Int
  media_count : Int
  existing_indices : List Int
  pages : List Int
deriving Repr

/-- Database writes performed by one `fetch_metadata` loop iteration. -/
structure FetchMetadataEffects where
  updated_gallery : Bool
  removed_previews : Bool
  saved_previews : Bool
deriving Repr, DecidableEq

/-- Step 3 of a `fetch_metadata` iteration: walk the fetched previews in
order and, for each index not yet known, record the index and push a fresh
(not downloaded) image task. -/
def addPreviews (gid : Int) :
    List ImagePreview → List Int → List PandaImageTask → List Int × List PandaImageTask
  | [], ex, ts => (ex, ts)
  | p :: ps, ex, ts =>
    if ex.contains p.index then addPreviews gid ps ex ts
    else addPreviews gid ps (ex ++ [p.index]) (ts ++ [⟨gid, p.index, p.token, none, false⟩])

/-- One iteration of the `fetch_metadata` loop
(`bottle_server/src/background_job/panda.rs`) applied to a fetched
preview page: reconcile the reported media count (updating the stored
count and the gallery detail record on drift), detect a token change on
an already-known index (clearing all accumulated index/token state and
the persisted previews), otherwise persist the previews and extend the
accumulated state, and finally recompute the pages still to fetch. -/
def fetchMetadataStep (s : FetchMetadataState) (result : GalleryPageResult) :
    FetchMetadataState × FetchMetadataEffects :=
  let page_count := some result.preview_page_count
  let page_size := some (result.previews.length : Int)
  let count_inconsistent := result.image_count ≠ s.task.media_count
  let media_count := if count_inconsistent then result.image_count else s.media_count
  let task0 := if count_inconsistent then
      { s.task with media_count := result.image_count } else s.task
  let updated_gallery := !task0.has_detail || count_inconsistent
  let media_inconsistent := result.previews.any fun p =>
    match s.page_token.lookup p.index with
    | some t => t ≠ p.token
    | none => false
  if media_inconsistent then
    ({ task := { task0 with image_tasks := [] },
       page_token := [],
       page_count := page_count,
       page_size := page_size,
       media_count := media_count,
       existing_indices := [],
       pages := pagesToFetch media_count page_count page_size [] },
     ⟨updated_gallery, true, false⟩)
  else
    let et := addPreviews s.task.gid result.previews s.existing_indices task0.image_tasks
    ({ task := { task0 with image_tasks := et.2 },
       page_token := s.page_token,
       page_count := page_count,
       page_size := page_size,
       media_count := media_count,
       existing_indices := et.1,
       pages := pagesToFetch media_count page_count page_size et.1 },
     ⟨updated_gallery, false, true⟩)

/-- Fetch direction (`Direction` in `bottle_twitter/src/feed.rs` and
`bottle_panda/src/feed.rs`). -/
inductive Direction where
  | Forward
  | Backward
deriving Repr, DecidableEq

/-- Inputs of `TwitterFeed::save` (`bottle_twitter/src/feed.rs`):
the ids of the fetched tweets in fetch order, the context's direction,
and the ids already recorded in this feed's membership table. -/
structure TwitterSaveInput where
  fetched_ids : List Int
  direction : Direction
  membership : List Int
deriving Repr, DecidableEq

/-- `TwitterFeed::save`: first component tells whether the call persisted
`reached_end = true`, second is the returned `SaveResult`. -/
def twitterSave (inp : TwitterSaveInput) : Bool × SaveResult :=
  if inp.fetched_ids.isEmpty then
    if inp.direction = .Backward then (true, ⟨[], true, true⟩)
    else (false, ⟨[], true, false⟩)
  else
    let existing_ids := inp.fetched_ids.filter fun i => inp.membership.contains i
    let news := inp.fetched_ids.filter fun i => !inp.membership.contains i
    if news.isEmpty then (false, ⟨[], true, false⟩)
    else (false, ⟨news.map toString, !existing_ids.isEmpty, false⟩)

/-- The pixiv feed fields `PixivFeed::save` reads
(`bottle_pixiv/src/feed.rs`). -/
structure PixivFeedModel where
  first_fetch_limit : Option Int
  reached_end : Bool
deriving Repr, DecidableEq

/-- Inputs of `PixivFeed::save`: fetched illust ids in fetch order,
whether the response's `next_url` is absent (the source has no further
page), the feed's membership ids, and the context's running
`total_fetched` counter. -/
structure PixivSaveInput where
  fetched_ids : List Int
  next_url_none : Bool
  membership : List Int
  total_fetched : Int
deriving Repr, DecidableEq

/-- `PixivFeed::save`: first component tells whether the call persisted
`reached_end = true` (either because `next_url` was absent, or in the
`first_fetch_limit` branch), second is the returned `SaveResult`. -/
def pixivSave (feed : PixivFeedModel) (inp : PixivSaveInput) : Bool × SaveResult :=
  let reached_end := inp.next_url_none
  if inp.fetched_ids.isEmpty then (reached_end, ⟨[], true, reached_end⟩)
  else
    let existing_ids := inp.fetched_ids.filter fun i => inp.membership.contains i
    let news := inp.fetched_ids.filter fun i => !inp.membership.contains i
    if news.isEmpty then (reached_end, ⟨[], true, false⟩)
    else
      match feed.first_fetch_limit with
      | some limit =>
        if !feed.reached_end && decide (limit ≤ inp.total_fetched) then
          (true, ⟨news.map toString, true, true⟩)
        else
          (reached_end, ⟨news.map toString, !existing_ids.isEmpty, reached_end⟩)
      | none => (reached_end, ⟨news.map toString, !existing_ids.isEmpty, reached_end⟩)

/-- Inputs of `PandaFeed::save` (`bottle_panda/src/feed.rs`). -/
structure PandaSaveInput where
  fetched_ids : List Int
  direction : Direction
  prev_page_offset_none : Bool
  next_page_offset_none : Bool
  membership : List Int
deriving Repr, DecidableEq

/-- `PandaFeed::save`: first component tells whether the call persisted
`reached_end = true`, second is the returned `SaveResult`. -/
def pandaSave (inp : PandaSaveInput) : Bool × SaveResult :=
  let empty_result := inp.fetched_ids.isEmpty
  let no_more_result := match inp.direction with
    | .Forward => inp.prev_page_offset_none
    | .Backward => inp.next_page_offset_none
  let reached_end := decide (inp.direction = .Backward) && (no_more_result || empty_result)
  if empty_result then (reached_end, ⟨[], true, reached_end⟩)
  else
    let existing_ids := inp.fetched_ids.filter fun i => inp.membership.contains i
    let news := inp.fetched_ids.filter fun i => !inp.membership.contains i
    if news.isEmpty then (reached_end, ⟨[], true, reached_end⟩)
    else (reached_end, ⟨news.map toString, !existing_ids.isEmpty || no_more_result, false⟩)

/-- `YandereFeed::save` (`bottle_yandere/src/feed.rs`); yandere feeds have
no direction and always fetch backward.  First component tells whether the
call persisted `reached_end = true`. -/
def yandereSave (fetched_ids membership : List Int) : Bool × SaveResult :=
  if fetched_ids.isEmpty then (true, ⟨[], true, true⟩)
  else
    let existing_ids := fetched_ids.filter fun i => membership.contains i
    let news := fetched_ids.filter fun i => !membership.contains i
    if news.isEmpty then (false, ⟨[], true, false⟩)
    else (false, ⟨news.map toString, !existing_ids.isEmpty, false⟩)

theorem intRangeFrom_length (a : Int) (n : Nat) : (intRangeFrom a n).length = n := by
  simp [intRangeFrom]

theorem intRangeFrom_getElem (a : Int) (n i : Nat) (h : i < (intRangeFrom a n).length) :
    (intRangeFrom a n)[i] = a + (i : Int) := by
  simp [intRangeFrom]

theorem intRangeFrom_reverse (a : Int) (n : Nat) :
    (intRangeFrom a n).reverse = (List.range n).map fun k : Nat => a + (n : Int) - 1 - k := by
  apply List.ext_getElem
  · simp [intRangeFrom]
  · intro i h1 h2
    rw [List.getElem_reverse, intRangeFrom_getElem, List.getElem_map, List.getElem_range]
    rw [intRangeFrom_length]
    have hi : i < n := by
      simpa using h2
    omega

/-- C2: the `update_feed` loop consumes a cycle per scripted `SaveResult`,
stops at the first `should_stop = true` (after exactly `K = l₁.length + 1`
cycles, fetching nothing afterwards), and the terminal state is
`Success { fetched }` with `fetched` the sum of the per-cycle new-id
counts of those `K` cycles. -/
theorem update_feed_stops_at_first_should_stop
    (l₁ l₂ : List SaveResult) (r : SaveResult)
    (h1 : ∀ s ∈ l₁, s.should_stop = false) (h2 : r.should_stop = true) :
    updateFeedLoop (l₁ ++ r :: l₂)
      = (l₁.length + 1, ((l₁ ++ [r]).map fun s => s.post_ids.length).sum, true)
    ∧ updateFeedFinal (l₁ ++ r :: l₂)
      = some (.Success (((l₁ ++ [r]).map fun s => s.post_ids.length).sum)) := by
  have key : updateFeedLoop (l₁ ++ r :: l₂)
      = (l₁.length + 1, ((l₁ ++ [r]).map fun s => s.post_ids.length).sum, true) := by
    induction l₁ with
    | nil => simp [updateFeedLoop, h2]
    | cons s t ih =>
      have hs : s.should_stop = false := h1 s (by simp)
      have ih' := ih fun x hx => h1 x (by simp [hx])
      simp [updateFeedLoop, hs, ih']
  exact ⟨key, by simp [updateFeedFinal, key]⟩

/-- Witness for C2 at a concrete three-cycle script. -/
theorem update_feed_stops_at_first_should_stop_witness :
    updateFeedLoop [⟨["a"], false, false⟩, ⟨["b", "c"], true, false⟩, ⟨["d"], true, false⟩]
      = (2, 3, true)
    ∧ updateFeedFinal [⟨["a"], false, false⟩, ⟨["b", "c"], true, false⟩, ⟨["d"], true, false⟩]
      = some (.Success 3) := by
  have h := update_feed_stops_at_first_should_stop
    [⟨["a"], false, false⟩] [⟨["d"], true, false⟩] ⟨["b", "c"], true, false⟩
    (by intro s hs; simp at hs; simp [hs]) rfl
  simpa using h

/-- C3: Finalize (`PixivFeed::handle_after_update`) pairs the combined
per-cycle id list, in run order, with exactly the indices
`m+L, m+L-1, ..., m+1` above the feed's previous maximum `m`: the
assigned indices are unique, contiguous and strictly decreasing along the
id list, the first-seen id receiving the highest new index. -/
theorem handle_after_update_sort_indices (m : Int) (rs : List SaveResult) :
    handleAfterUpdate m rs
      = (rs.flatMap (·.post_ids)).zip
          ((List.range (rs.flatMap (·.post_ids)).length).map
            fun k : Nat => m + ((rs.flatMap (·.post_ids)).length : Int) - k)
    ∧ ((handleAfterUpdate m rs).map Prod.snd).Pairwise (· > ·)
    ∧ ((handleAfterUpdate m rs).map Prod.snd).Nodup
    ∧ (∀ x : Int, x ∈ (handleAfterUpdate m rs).map Prod.snd ↔
        m + 1 ≤ x ∧ x ≤ m + ((rs.flatMap (·.post_ids)).length : Int)) := by
  have hfun : (fun k : Nat => m + 1 + ((rs.flatMap (·.post_ids)).length : Int) - 1 - k)
      = fun k : Nat => m + ((rs.flatMap (·.post_ids)).length : Int) - k := by
    funext k
    ring
  have hA : handleAfterUpdate m rs
      = (rs.flatMap (·.post_ids)).zip
          ((List.range (rs.flatMap (·.post_ids)).length).map
            fun k : Nat => m + ((rs.flatMap (·.post_ids)).length : Int) - k) := by
    rw [handleAfterUpdate, intRangeFrom_reverse, hfun]
  have hsnd : (handleAfterUpdate m rs).map Prod.snd
      = (List.range (rs.flatMap (·.post_ids)).length).map
          fun k : Nat => m + ((rs.flatMap (·.post_ids)).length : Int) - k := by
    rw [hA]
    apply List.map_snd_zip
    simp
  refine ⟨hA, ?_, ?_, ?_⟩
  · rw [hsnd, List.pairwise_map]
    refine (List.pairwise_lt_range _).imp ?_
    intro a b hab
    have ha : (a : Int) < b := by exact_mod_cast hab
    omega
  · rw [hsnd]
    refine (List.nodup_range _).map ?_
    intro a b hab
    simp only at hab
    omega
  · intro x
    rw [hsnd]
    simp only [List.mem_map, List.mem_range]
    constructor
    · rintro ⟨k, hk, rfl⟩
      omega
    · rintro ⟨h1, h2⟩
      refine ⟨(m + ((rs.flatMap (·.post_ids)).length : Int) - x).toNat, by omega, by omega⟩

/-- Witness for C3 at `m = 7` and two cycles with three ids. -/
theorem handle_after_update_sort_indices_witness :
    handleAfterUpdate 7 [⟨["a", "b"], false, false⟩, ⟨["c"], true, false⟩]
      = [("a", 10), ("b", 9), ("c", 8)]
    ∧ (10 : Int) ∈ (handleAfterUpdate 7
        [⟨["a", "b"], false, false⟩, ⟨["c"], true, false⟩]).map Prod.snd := by
  have h := handle_after_update_sort_indices 7 [⟨["a", "b"], false, false⟩, ⟨["c"], true, false⟩]
  refine ⟨by rw [h.1]; rfl, (h.2.2.2 10).mpr (by norm_num)⟩

/-- C9: the rendered state of a `PartialSuccess` download job differs from
that of every `Failed` job, in both the image-download and the
gallery-download category: the former always carries the failure list
(`failures = some fs`) and no error string, the latter a single error
string (`error = some e`) and no failure list. -/
theorem incomplete_run_rendered_distinct_from_failed :
    (∀ (total success : Nat) (fs : List ImageDownloadFailure) (e : String),
      imageResponseOf (.PartialSuccess total success fs) ≠ imageResponseOf (.Failed e)
      ∧ (imageResponseOf (.PartialSuccess total success fs)).failures = some fs
      ∧ (imageResponseOf (.Failed e)).error = some e
      ∧ (imageResponseOf (.Failed e)).failures = none)
    ∧ (∀ (gid gid2 : Int) (title title2 : String) (total success : Int)
        (fs : List PandaImageDownloadFailure) (e : String),
      pandaResponseOf gid title (.PartialSuccess total success fs)
        ≠ pandaResponseOf gid2 title2 (.Failed e)
      ∧ (pandaResponseOf gid title (.PartialSuccess total success fs)).failures = some fs
      ∧ (pandaResponseOf gid2 title2 (.Failed e)).error = some e
      ∧ (pandaResponseOf gid2 title2 (.Failed e)).failures = none) := by
  constructor
  · intro total success fs e
    refine ⟨?_, rfl, rfl, rfl⟩
    intro h
    have := congrArg ImageDownloadJobStateResponse.failures h
    simp [imageResponseOf, ImageDownloadJobStateResponse.dflt] at this
  · intro gid gid2 title title2 total success fs e
    refine ⟨?_, rfl, rfl, rfl⟩
    intro h
    have := congrArg PandaDownloadJobStateResponse.failures h
    simp [pandaResponseOf, PandaDownloadJobStateResponse.dflt] at this

/-- C1 as stated fails for the image-download category: when the singleton
image-download job is in the terminal state `Success 5`, a trigger
enqueues the job (and is accepted) but leaves the state cell holding
`Success 5` instead of resetting it to `Ready`. -/
theorem send_image_download_does_not_reset_to_ready :
    (sendImageDownload (.Success 5)).1 = .Success 5
    ∧ ImageDownloadJobState.Success 5 ≠ .Ready
    ∧ (sendImageDownload (.Success 5)).2.1 = true := by
  exact ⟨rfl, by decide, rfl⟩

/-- C1 amended: for the feed-sync and gallery-download categories, a
missing entry is created `Ready` and the key pushed (accepted), a finished
entry is reset to `Ready` and re-pushed (accepted), and an unfinished
entry causes `false` with no state change and no push.  The image-download
job is a process-wide singleton whose cell exists from startup: a trigger
while it is unfinished is rejected with an error and no push, and any
other trigger pushes the job without touching the state cell.  In
addition, `finished` means exactly `Success`/`Failed` for feed jobs,
`Success`/`PartialSuccess`/`Failed` for gallery jobs, and everything but
`Running` for the image job. -/
theorem enqueue_registry_behavior :
    (∀ s? : Option FeedUpdateJobState,
      (s? = none → sendFeedUpdate s? = ⟨.Ready, true, true⟩)
      ∧ (∀ s, s? = some s → s.finished = true → sendFeedUpdate s? = ⟨.Ready, true, true⟩)
      ∧ (∀ s, s? = some s → s.finished = false → sendFeedUpdate s? = ⟨s, false, false⟩))
    ∧ (∀ s? : Option PandaDownloadJobState,
      (s? = none → sendPandaDownload s? = ⟨.Ready, true, true⟩)
      ∧ (∀ s, s? = some s → s.finished = true → sendPandaDownload s? = ⟨.Ready, true, true⟩)
      ∧ (∀ s, s? = some s → s.finished = false → sendPandaDownload s? = ⟨s, false, false⟩))
    ∧ (∀ s : ImageDownloadJobState,
      (s.finished = false →
        sendImageDownload s = (s, false, .error "Image download job is already running"))
      ∧ (s.finished = true → sendImageDownload s = (s, true, .ok ())))
    ∧ (∀ s : FeedUpdateJobState,
      s.finished = true ↔ (∃ f, s = .Success f) ∨ ∃ e, s = .Failed e)
    ∧ (∀ s : PandaDownloadJobState,
      s.finished = true ↔
        (∃ t, s = .Success t) ∨ (∃ t u fs, s = .PartialSuccess t u fs) ∨ ∃ e, s = .Failed e)
    ∧ (∀ s : ImageDownloadJobState,
      s.finished = false ↔ ∃ t u f, s = .Running t u f) := by
  refine ⟨?_, ?_, ?_, ?_, ?_, ?_⟩
  · intro s?
    refine ⟨fun h => by simp [h, sendFeedUpdate], fun s hs hf => ?_, fun s hs hf => ?_⟩
    · simp [hs, sendFeedUpdate, hf]
    · simp [hs, sendFeedUpdate, hf]
  · intro s?
    refine ⟨fun h => by simp [h, sendPandaDownload], fun s hs hf => ?_, fun s hs hf => ?_⟩
    · simp [hs, sendPandaDownload, hf]
    · simp [hs, sendPandaDownload, hf]
  · intro s
    exact ⟨fun hf => by simp [sendImageDownload, hf], fun hf => by simp [sendImageDownload, hf]⟩
  · intro s
    cases s <;> simp [FeedUpdateJobState.finished]
  · intro s
    cases s <;> simp [PandaDownloadJobState.finished]
  · intro s
    cases s <;> simp [ImageDownloadJobState.finished]

/-- Witness for the amended C1 at concrete states of each category. -/
theorem enqueue_registry_behavior_witness :
    sendFeedUpdate (some (.Success 3)) = ⟨.Ready, true, true⟩
    ∧ sendPandaDownload (some (.Running 5 1 0)) = ⟨.Running 5 1 0, false, false⟩
    ∧ sendImageDownload .Ready = (.Ready, true, .ok ()) := by
  have h := enqueue_registry_behavior
  exact ⟨(h.1 (some (.Success 3))).2.1 _ rfl rfl,
    (h.2.1 (some (.Running 5 1 0))).2.2 _ rfl rfl,
    (h.2.2.1 .Ready).2 rfl⟩

/-- C6 as stated fails on the pixiv `first_fetch_limit` branch: a save
whose response still has a next page (`next_url_none = false`, so the
source's pages are not exhausted) persists `reached_end = true` as soon
as the running `total_fetched` counter reaches the feed's
`first_fetch_limit`. -/
theorem pixiv_first_fetch_limit_persists_reached_end :
    (pixivSave ⟨some 50, false⟩ ⟨[1], false, [], 55⟩).1 = true
    ∧ (⟨[1], false, [], 55⟩ : PixivSaveInput).next_url_none = false := by
  exact ⟨rfl, rfl⟩

/-- C6 amended: `reached_end` is persisted true exactly when a
backward-direction fetch exhausts the source's pages — twitter: backward
and empty response; panda: backward and (no further page or empty
response); yandere (always backward): empty response; pixiv (always
backward): no `next_url` — except that a pixiv feed with a
`first_fetch_limit` additionally persists it when new posts were saved,
the feed had not reached end, and `total_fetched` has reached the
limit. -/
theorem reached_end_persistence :
    (∀ inp : TwitterSaveInput,
      (twitterSave inp).1 = true ↔ inp.direction = .Backward ∧ inp.fetched_ids = [])
    ∧ (∀ inp : PandaSaveInput,
      (pandaSave inp).1 = true ↔
        inp.direction = .Backward
        ∧ (inp.next_page_offset_none = true ∨ inp.fetched_ids = []))
    ∧ (∀ f e : List Int, (yandereSave f e).1 = true ↔ f = [])
    ∧ (∀ (feed : PixivFeedModel) (inp : PixivSaveInput),
      (pixivSave feed inp).1 = true ↔
        inp.next_url_none = true
        ∨ (∃ limit, feed.first_fetch_limit = some limit
            ∧ feed.reached_end = false ∧ limit ≤ inp.total_fetched
            ∧ inp.fetched_ids ≠ []
            ∧ inp.fetched_ids.filter (fun i => !inp.membership.contains i) ≠ [])) := by
  refine ⟨?_, ?_, ?_, ?_⟩
  · rintro ⟨fids, dir, mem⟩
    cases dir <;> simp only [twitterSave] <;> split_ifs <;>
      simp_all [List.isEmpty_iff]
  · rintro ⟨fids, dir, pnone, nnone, mem⟩
    cases dir <;> simp only [pandaSave] <;> split_ifs <;>
      simp_all [List.isEmpty_iff]
  · intro f e
    simp only [yandereSave]
    split_ifs <;> simp_all [List.isEmpty_iff]
  · rintro ⟨lim, re⟩ ⟨fids, nun, mem, tot⟩
    rcases lim with _ | limit
    · simp only [pixivSave]
      split_ifs <;> simp_all [List.isEmpty_iff]
    · simp only [pixivSave]
      split_ifs <;> simp_all [List.isEmpty_iff]

/-- Witness for the amended C6: a backward twitter fetch with an empty
response persists the flag; a panda save on a page with a further page
and new ids does not. -/
theorem reached_end_persistence_witness :
    (twitterSave ⟨[], .Backward, [5]⟩).1 = true
    ∧ (pandaSave ⟨[9], .Backward, false, false, []⟩).1 = false := by
  have h := reached_end_persistence
  refine ⟨(h.1 ⟨[], .Backward, [5]⟩).mpr ⟨rfl, rfl⟩, ?_⟩
  have h2 := (h.2.1 ⟨[9], .Backward, false, false, []⟩)
  simp only [show ((⟨[9], .Backward, false, false, []⟩ : PandaSaveInput).next_page_offset_none
    = false) from rfl] at h2
  rcases hb : (pandaSave ⟨[9], .Backward, false, false, []⟩).1 with _ | _
  · rfl
  · exact absurd ((h2.mp hb).2) (by simp)

/-- C4: evaluation of `download_images` at a failing schedule.  Two tasks;
task `a.jpg` succeeds, task `b.jpg` fails with "connection reset", and
`b.jpg`'s worker completes first (completion order `[1, 0]`, a valid
interleaving under the concurrency limit).  Because
`buffer_unordered(..).collect()` yields results in completion order while
the failure list zips them against the tasks in issue order, the run
reports the failure under `a.jpg`'s url instead of `b.jpg`'s — the counts
(`total = 2`, `success = 1`, one failure) are still correct. -/
theorem download_images_misattributes_failure :
    downloadImages
      [⟨"https://img.example/a.jpg", "root", "sub", "a.jpg", 1⟩,
       ⟨"https://img.example/b.jpg", "root", "sub", "b.jpg", 2⟩]
      [.ok ⟨"sub/a.jpg", "a.jpg", none, none, none, none, 10⟩,
       .error "connection reset"]
      [1, 0]
      = .PartialSuccess 2 1 [⟨"https://img.example/a.jpg", "connection reset"⟩]
    ∧ [1, 0].Perm (List.range 2)
    ∧ "https://img.example/a.jpg" ≠ "https://img.example/b.jpg" := by
  exact ⟨rfl, by decide, by decide⟩

/-- C7: rerunning the pipeline with `overwrite = false` when every task's
destination file already exists makes every worker return the local
file's info without touching the network, and the run ends in
`Success { total = N }` for any completion order. -/
theorem download_rerun_skips_network
    (tasks : List DownloadTask) (envs : List HarvestEnv) (completion : List Nat)
    (_hlen : envs.length = tasks.length)
    (hex : ∀ env ∈ envs, env.dest_exists = true) :
    (∀ env ∈ envs, harvestDownloadImage env false = (false, .ok env.local_info))
    ∧ downloadImages tasks (envs.map fun env => (harvestDownloadImage env false).2) completion
      = .Success tasks.length := by
  constructor
  · intro env henv
    simp [harvestDownloadImage, hex env henv]
  · by_cases ht : tasks.isEmpty = true
    · simp only [downloadImages, if_pos ht]
      rw [List.isEmpty_iff] at ht
      simp [ht]
    · simp only [downloadImages, if_neg ht]
      have hok : ∀ r ∈ collectUnordered
          (envs.map fun env => (harvestDownloadImage env false).2) completion,
          ∃ img, r = Except.ok img := by
        intro r hr
        simp only [collectUnordered, List.mem_filterMap] at hr
        obtain ⟨i, _, hi⟩ := hr
        have hmem := List.getElem?_mem hi
        simp only [List.mem_map] at hmem
        obtain ⟨env, henv, hr2⟩ := hmem
        refine ⟨env.local_info, ?_⟩
        rw [← hr2]
        simp [harvestDownloadImage, hex env henv]
      have hfail : ((tasks.zip (collectUnordered
          (envs.map fun env => (harvestDownloadImage env false).2) completion)).filterMap
            fun ti => match ti.2 with
              | .error e => some (⟨ti.1.url, e⟩ : ImageDownloadFailure)
              | .ok _ => none) = [] := by
        rw [List.filterMap_eq_nil_iff]
        intro p hp
        obtain ⟨img, himg⟩ := hok p.2 (List.of_mem_zip hp).2
        simp [himg]
      simp [hfail]

/-- Witness for C7: two tasks, both destinations present; the rerun hits
no network and ends `Success 2`. -/
theorem download_rerun_skips_network_witness :
    harvestDownloadImage ⟨true, ⟨"sub/a.jpg", "a.jpg", none, none, none, none, 10⟩,
        .error "offline"⟩ false
      = (false, .ok ⟨"sub/a.jpg", "a.jpg", none, none, none, none, 10⟩)
    ∧ downloadImages
        [⟨"https://img.example/a.jpg", "root", "sub", "a.jpg", 1⟩,
         ⟨"https://img.example/b.jpg", "root", "sub", "b.jpg", 2⟩]
        ([⟨true, ⟨"sub/a.jpg", "a.jpg", none, none, none, none, 10⟩, .error "offline"⟩,
          ⟨true, ⟨"sub/b.jpg", "b.jpg", none, none, none, none, 11⟩, .error "offline"⟩].map
            fun env => (harvestDownloadImage env false).2)
        [1, 0]
      = .Success 2 := by
  have h := download_rerun_skips_network
    [⟨"https://img.example/a.jpg", "root", "sub", "a.jpg", 1⟩,
     ⟨"https://img.example/b.jpg", "root", "sub", "b.jpg", 2⟩]
    [⟨true, ⟨"sub/a.jpg", "a.jpg", none, none, none, none, 10⟩, .error "offline"⟩,
     ⟨true, ⟨"sub/b.jpg", "b.jpg", none, none, none, none, 11⟩, .error "offline"⟩]
    [1, 0] rfl (by intro env henv; simp at henv; rcases henv with h1 | h1 <;> rw [h1])
  exact ⟨h.1 _ (by simp), h.2⟩

theorem mem_intRange {a b x : Int} : x ∈ intRange a b ↔ a ≤ x ∧ x < b := by
  simp only [intRange, List.mem_map, List.mem_range]
  constructor
  · rintro ⟨i, hi, rfl⟩
    omega
  · rintro ⟨h1, h2⟩
    exact ⟨(x - a).toNat, by omega, by omega⟩

theorem contains_iff_mem {l : List Int} {x : Int} : l.contains x = true ↔ x ∈ l := by
  induction l with
  | nil => simp
  | cons y t ih => simp [List.contains, List.elem_cons, ih] at ih ⊢

theorem not_contains_iff {l : List Int} {x : Int} : (!l.contains x) = true ↔ x ∉ l := by
  rw [Bool.not_eq_true']
  constructor
  · intro h hm
    rw [contains_iff_mem.mpr hm] at h
    cases h
  · intro h
    cases hc : l.contains x
    · rfl
    · exact absurd (contains_iff_mem.mp hc) h

theorem intRange_pairwise_lt (a b : Int) : (intRange a b).Pairwise (· < ·) := by
  rw [intRange, List.pairwise_map]
  refine (List.pairwise_lt_range _).imp ?_
  intro i j hij
  omega

/-- C10: `pages_to_fetch` returns exactly the pages `p ∈ [0, count)` whose
window `[p*size, (p+1)*size)` still contains an index of `[0, media_count)`
not in `existing` — where `size` defaults to 20 and `count` to
`guessed_page_count media_count size` — in strictly decreasing order (so
popping from the end of the vector visits pages in ascending order); and
for `0 ≤ a` and `0 < b` the guessed count is the integer ceiling of
`a / b`. -/
theorem pages_to_fetch_spec (media_count : Int) (page_count page_size : Option Int)
    (existing : List Int) :
    (∀ p : Int,
      p ∈ pagesToFetch media_count page_count page_size existing ↔
        (0 ≤ p
         ∧ p < page_count.getD (guessedPageCount media_count (page_size.getD GUESSED_PAGE_SIZE))
         ∧ ∃ i : Int, p * page_size.getD GUESSED_PAGE_SIZE ≤ i
             ∧ i < (p + 1) * page_size.getD GUESSED_PAGE_SIZE
             ∧ 0 ≤ i ∧ i < media_count ∧ i ∉ existing))
    ∧ (pagesToFetch media_count page_count page_size existing).Pairwise (· > ·)
    ∧ (∀ a b : Int, 0 ≤ a → 0 < b →
        b * (guessedPageCount a b - 1) < a ∧ a ≤ b * guessedPageCount a b) := by
  refine ⟨?_, ?_, ?_⟩
  · intro p
    simp only [pagesToFetch, List.mem_reverse, List.mem_filter, List.any_eq_true,
      mem_intRange, contains_iff_mem, not_contains_iff]
    constructor
    · rintro ⟨⟨hp0, hpc⟩, i, ⟨h1, h2⟩, ⟨h3, h4⟩, h5⟩
      exact ⟨hp0, hpc, i, h1, h2, h3, h4, h5⟩
    · rintro ⟨hp0, hpc, i, h1, h2, h3, h4, h5⟩
      exact ⟨⟨hp0, hpc⟩, i, ⟨h1, h2⟩, ⟨h3, h4⟩, h5⟩
  · rw [pagesToFetch]
    rw [List.pairwise_reverse]
    exact (intRange_pairwise_lt 0 _).filter _
  · intro a b ha hb
    have h1 := Int.ediv_add_emod (-a) b
    have h2 := Int.emod_nonneg (-a) (by omega : b ≠ 0)
    have h3 := Int.emod_lt_of_pos (-a) hb
    simp only [guessedPageCount]
    constructor <;> nlinarith [h1, h2, h3]

/-- Witness for C10: with 100 images, no known indices and default sizing,
page 3 is selected (index 60 is missing from its window), and the guessed
page count 5 is the ceiling of 100/20. -/
theorem pages_to_fetch_spec_witness :
    3 ∈ pagesToFetch 100 none none []
    ∧ 20 * (guessedPageCount 100 20 - 1) < 100 ∧ 100 ≤ 20 * guessedPageCount 100 20 := by
  have h := pages_to_fetch_spec 100 none none []
  refine ⟨(h.1 3).mpr ⟨by norm_num, by decide, 60, by decide, by decide, by decide, by decide,
    by decide⟩, (h.2.2 100 20 (by norm_num) (by norm_num)).1,
    (h.2.2 100 20 (by norm_num) (by norm_num)).2⟩

theorem media_inconsistent_iff (s : FetchMetadataState) (result : GalleryPageResult) :
    (result.previews.any fun p =>
      match s.page_token.lookup p.index with
      | some t => t ≠ p.token
      | none => false) = true
    ↔ ∃ p ∈ result.previews, ∃ t, s.page_token.lookup p.index = some t ∧ t ≠ p.token := by
  rw [List.any_eq_true]
  constructor
  · rintro ⟨p, hp, hcond⟩
    cases hl : s.page_token.lookup p.index with
    | none =>
      rw [hl] at hcond
      simp at hcond
    | some t =>
      rw [hl] at hcond
      refine ⟨p, hp, t, hl, ?_⟩
      simpa using hcond
  · rintro ⟨p, hp, t, hl, hne⟩
    refine ⟨p, hp, ?_⟩
    rw [hl]
    simpa using hne

/-- C5: one `fetch_metadata` iteration (a) on a reported image count that
differs from the stored one updates the stored count and the gallery
detail record and recomputes the remaining page set from the new count
(and reported page count/size) before any image is downloaded, and (b) on
a token that differs from the held token of an already-known index clears
the image task list, the token map, the known-index set and the persisted
previews, restarting accumulation from empty. -/
theorem fetch_metadata_reconciliation (s : FetchMetadataState) (result : GalleryPageResult) :
    (result.image_count ≠ s.task.media_count →
      ((fetchMetadataStep s result).1.task.media_count = result.image_count
        ∧ (fetchMetadataStep s result).1.media_count = result.image_count
        ∧ (fetchMetadataStep s result).2.updated_gallery = true
        ∧ (fetchMetadataStep s result).1.pages
            = pagesToFetch result.image_count (some result.preview_page_count)
                (some (result.previews.length : Int))
                (fetchMetadataStep s result).1.existing_indices))
    ∧ ((∃ p ∈ result.previews, ∃ t, s.page_token.lookup p.index = some t ∧ t ≠ p.token) →
      ((fetchMetadataStep s result).1.task.image_tasks = []
        ∧ (fetchMetadataStep s result).1.page_token = []
        ∧ (fetchMetadataStep s result).1.existing_indices = []
        ∧ (fetchMetadataStep s result).2.removed_previews = true
        ∧ (fetchMetadataStep s result).2.saved_previews = false)) := by
  constructor
  · intro hc
    by_cases hmi : (result.previews.any fun p =>
        match s.page_token.lookup p.index with
        | some t => t ≠ p.token
        | none => false) = true
    · simp only [fetchMetadataStep]
      rw [if_pos hmi]
      simp [hc]
    · simp only [fetchMetadataStep]
      rw [if_neg hmi]
      simp [hc]
  · intro hex
    have hmi := (media_inconsistent_iff s result).mpr hex
    simp only [fetchMetadataStep]
    rw [if_pos hmi]
    simp

/-- Witness for C5: a gallery stored with 3 images and token "aa" at index
0, against a page reporting 4 images and token "bb" at index 0. -/
theorem fetch_metadata_reconciliation_witness :
    (fetchMetadataStep
        ⟨⟨7, "tok", "t", true, 3, 1, [⟨7, 0, "aa", none, false⟩]⟩,
         [(0, "aa")], none, none, 3, [0], [0]⟩
        ⟨4, 1, [⟨0, "bb"⟩]⟩).1.media_count = 4
    ∧ (fetchMetadataStep
        ⟨⟨7, "tok", "t", true, 3, 1, [⟨7, 0, "aa", none, false⟩]⟩,
         [(0, "aa")], none, none, 3, [0], [0]⟩
        ⟨4, 1, [⟨0, "bb"⟩]⟩).1.existing_indices = []
    ∧ (fetchMetadataStep
        ⟨⟨7, "tok", "t", true, 3, 1, [⟨7, 0, "aa", none, false⟩]⟩,
         [(0, "aa")], none, none, 3, [0], [0]⟩
        ⟨4, 1, [⟨0, "bb"⟩]⟩).2.removed_previews = true := by
  have h := fetch_metadata_reconciliation
    ⟨⟨7, "tok", "t", true, 3, 1, [⟨7, 0, "aa", none, false⟩]⟩,
     [(0, "aa")], none, none, 3, [0], [0]⟩
    ⟨4, 1, [⟨0, "bb"⟩]⟩
  have ha := h.1 (by decide)
  have hb := h.2 ⟨⟨0, "bb"⟩, by simp, "aa", rfl, by decide⟩
  exact ⟨ha.2.1, hb.2.2.1, hb.2.2.2.1⟩

end Bottle
